import Mathlib

/-!
Shallow embedding of the BZFlag client core: `BZFlag/Client/Base.py`
(class `BaseClient`) and `BZFlag/Client/Stateful.py` (class
`StatefulClient`).  Python attributes of the client object become fields
of `ClientState`; each method becomes a function on `ClientState`.
Handlers that can `raise` return `ClientState × Option ErrKind`, where
the returned state is the state reached at the moment of the raise
(Python exceptions do not roll back earlier attribute assignments).

Collaborator modules that are not part of the repository's source files
(`BZFlag.Errors`, `BZFlag.Flag`, `BZFlag.World`, `BZFlag.Game`,
`BZFlag.Event`, `BZFlag.Network`, `BZFlag.Protocol`) are modelled from
the spec; each such definition carries a doc comment starting with
`Modelled from the spec:`.  Event emission (`Event.attach` wrapping) is
embedded directly: emitting an event appends it to the `events` log and
runs the observers/method bodies wired up in `BaseClient.init` and
`StatefulClient.init` (`onConnect` observed by `negotiateFlags`,
`onNegotiateFlags` whose method body calls `getWorldHash`,
`onDisconnect` whose method body stops the event loop).
-/

/-- Association-list lookup by decidable equality, modelling Python
dictionary indexing (`d[k]` succeeding iff the key is present). -/
def alookup {α β : Type} [DecidableEq α] : List (α × β) → α → Option β
  | [], _ => none
  | (k, v) :: rest, key => if k = key then some v else alookup rest key

/-- Association-list update-or-insert, modelling Python dictionary
assignment `d[k] = v`. -/
def aset {α β : Type} [DecidableEq α] : List (α × β) → α → β → List (α × β)
  | [], key, val => [(key, val)]
  | (k, v) :: rest, key, val =>
      if k = key then (k, val) :: rest else (k, v) :: aset rest key val

/-- Association-list removal, modelling Python `del d[k]` tolerant of an
absent key. -/
def aremove {α β : Type} [DecidableEq α] : List (α × β) → α → List (α × β)
  | [], _ => []
  | (k, v) :: rest, key =>
      if k = key then aremove rest key else (k, v) :: aremove rest key

/-- Concatenation of a list of byte strings (Python `''.join` /
repeated `+=`). -/
def concatStrs : List String → String
  | [] => ""
  | s :: rest => s ++ concatStrs rest

/-- Modelled from the spec: `Flag.joinAbbreviations` joins a list of
capability abbreviations into a single abbreviation string. -/
def joinAbbreviations : List String → String := concatStrs

/-- Helper list of two-character chunks of a character list, structural
recursion for `splitAbbreviations`. -/
def splitAbbrevChars : List Char → List String
  | [] => []
  | [c] => [String.mk [c]]
  | a :: b :: rest => String.mk [a, b] :: splitAbbrevChars rest

/-- Modelled from the spec: `Flag.splitAbbreviations` decodes a joined
abbreviation string back into the list of capability abbreviations
(two characters each); the empty string decodes to the empty list. -/
def splitAbbreviations (s : String) : List String :=
  splitAbbrevChars s.data

/-- Python `', '.join` over a list of strings, used in the flag
negotiation error message. -/
def joinComma : List String → String
  | [] => ""
  | [s] => s
  | s :: rest => s ++ ", " ++ joinComma rest

/-- Modelled from the spec: `BZFlag.protocolVersion`, the client's
compiled-in protocol version string (the module defining it is not among
the repository's source files; only equality with the handshake's
version field matters). -/
def protocolVersion : String := "BZFlag 1"

/-- Lifecycle events attached in `BaseClient.init` and
`StatefulClient.init`. -/
inductive Ev
  | onConnect
  | onDisconnect
  | onLoadWorld
  | onStartWorldDownload
  | onNegotiateFlags
deriving DecidableEq

/-- Outgoing wire messages written to the server (`Protocol.ToServer`),
restricted to those the embedded code sends.  `msgLagPing` is the
verbatim echo of an incoming lag ping. -/
inductive OutMsg
  | msgNegotiateFlags (data : String)
  | msgWantWHash
  | msgGetWorld (offset : Nat)
  | msgLagPing (data : String)
deriving DecidableEq

/-- Incoming wire messages (`Protocol.FromServer`) dispatched by
`StatefulClient`'s `onMsg…` handlers.  Field payloads that the handlers
treat opaquely are carried as strings. -/
inductive InMsg
  | msgSuperKill
  | msgLagPing (data : String)
  | msgNegotiateFlags (data : String)
  | msgWantWHash (lifetime : String) (hash : String)
  | msgGetWorld (data : String) (remaining : Bool)
  | msgAddPlayer (pid : Nat) (fields : String)
  | msgRemovePlayer (pid : Nat)
  | msgPlayerUpdate (pid : Nat) (fields : String)
  | msgFlagUpdate (flagNum : Nat) (updateId : String) (fields : String)
  | msgGrabFlag (flagNum : Nat) (updateId : String) (fields : String)
  | msgDropFlag (flagNum : Nat) (updateId : String) (fields : String)
  | msgTeamUpdate
  | msgNewRabbit
  | msgShotBegin
  | msgShotEnd
  | msgAlive
  | msgTeleport
deriving DecidableEq

/-- Exception classes raised by the embedded code (`BZFlag.Errors`).
`networkException`, `protocolError` and `protocolWarning` are the
classes the source raises; `configurationError` is the class named by
the spec's error taxonomy for an invalid connect target, included so
that the spec's wording can be compared with the code (the code never
raises it). -/
inductive ErrKind
  | networkException (msg : String)
  | protocolError (msg : String)
  | protocolWarning (msg : String)
  | configurationError (msg : String)
deriving DecidableEq

/-- Modelled from the spec: the error taxonomy classifies protocol
warnings as non-fatal (reported, the triggering update dropped) and the
other raised classes as fatal to the in-progress step. -/
def ErrKind.isFatal : ErrKind → Bool
  | .protocolWarning _ => false
  | _ => true

/-- Predicate picking out the spec's `ConfigurationError` class. -/
def ErrKind.isConfigurationError : ErrKind → Bool
  | .configurationError _ => true
  | _ => false

/-- Modelled from the spec: a Player entry of the Game Model; the
positional/status fields the handlers copy from messages are carried
opaquely as one string. -/
structure Player where
  fields : String
deriving DecidableEq

/-- Modelled from the spec: a Flag entry of the Game Model, holding the
flag's resolved capability type and its opaque state fields. -/
structure FlagEntry where
  flagType : String
  fields : String
deriving DecidableEq

/-- Modelled from the spec: the Game Model (`Game.Game()`): mapping from
player id to Player, mapping from flag number to Flag, and the world
(none until loaded; a loaded world is the World Codec's decode of the
binary blob). -/
structure Game where
  players : List (Nat × Player)
  flags : List (Nat × FlagEntry)
  world : Option String
deriving DecidableEq

/-- Modelled from the spec: the World Codec's decode
(`world.loadBinary`) of a complete binary world blob, identified with
the blob it was decoded from (decode semantics are out of scope). -/
def loadBinary (bytes : String) : String := bytes

/-- Which read handler is installed on the TCP socket. -/
inductive SockHandler
  | helloHandler
  | messageHandler
deriving DecidableEq

/-- State of a `StatefulClient` object plus its external collaborators:
sockets are numbered handles (`nextSock` the next fresh number),
`loopSources` and `loopRunning` model the external event loop,
`sent` logs every `tcp.write`, `events` logs every emitted event,
`cachingEnabled` models `worldCache` being a `World.Cache()` rather than
`None`, `cacheStore` the external content-addressed store, and
`binaryWorld = none` models the attribute being unset/deleted. -/
structure ClientState where
  tcp : Option Nat
  udp : Option Nat
  multicast : Option Nat
  connected : Bool
  id : Option Nat
  handler : Option SockHandler
  nextSock : Nat
  loopSources : List Nat
  loopRunning : Bool
  sent : List OutMsg
  events : List Ev
  game : Game
  cachingEnabled : Bool
  cacheStore : List (String × String)
  worldHash : Option String
  binaryWorld : Option String
  worldDownloaded : Bool
deriving DecidableEq

/-- A flag capability dictionary (`Flag.getDict()`), mapping the
capability-type id carried in flag messages to the flag's type. -/
abbrev FlagDict := List (String × String)

/-- State after `StatefulClient.init` on a fresh client: no sockets, not
connected, empty game model, no world transfer, event loop running. -/
def initState : ClientState :=
  { tcp := none, udp := none, multicast := none, connected := false,
    id := none, handler := none, nextSock := 0, loopSources := [],
    loopRunning := true, sent := [], events := [],
    game := { players := [], flags := [], world := none },
    cachingEnabled := false, cacheStore := [], worldHash := none,
    binaryWorld := none, worldDownloaded := false }

/-- Python `self.tcp.write(message)`: append to the log of sent
messages. -/
def tcpWrite (s : ClientState) (m : OutMsg) : ClientState :=
  { s with sent := s.sent ++ [m] }

/-- `StatefulClient.negotiateFlags`: send a `MsgNegotiateFlags` carrying
the joined abbreviations of the locally known capability dictionary. -/
def negotiateFlags (dict : FlagDict) (s : ClientState) : ClientState :=
  tcpWrite s (.msgNegotiateFlags (joinAbbreviations (dict.map Prod.fst)))

/-- `StatefulClient.getWorldHash`: send a `MsgWantWHash`. -/
def getWorldHash (s : ClientState) : ClientState :=
  tcpWrite s .msgWantWHash

/-- Emission of `onConnect`: log the event and run its observer
`negotiateFlags` (wired in `StatefulClient.init`). -/
def emitOnConnect (dict : FlagDict) (s : ClientState) : ClientState :=
  negotiateFlags dict { s with events := s.events ++ [Ev.onConnect] }

/-- Emission of `onDisconnect`: log the event and run the default
handler `BaseClient.onDisconnect`, which stops the event loop. -/
def emitOnDisconnect (s : ClientState) : ClientState :=
  { s with events := s.events ++ [Ev.onDisconnect], loopRunning := false }

/-- Emission of `onNegotiateFlags`: log the event and run the method
body `StatefulClient.onNegotiateFlags`, which calls `getWorldHash`. -/
def emitOnNegotiateFlags (s : ClientState) : ClientState :=
  getWorldHash { s with events := s.events ++ [Ev.onNegotiateFlags] }

/-- Emission of `onLoadWorld`: log the event (no core-side handler). -/
def emitOnLoadWorld (s : ClientState) : ClientState :=
  { s with events := s.events ++ [Ev.onLoadWorld] }

/-- Emission of `onStartWorldDownload`: log the event. -/
def emitOnStartWorldDownload (s : ClientState) : ClientState :=
  { s with events := s.events ++ [Ev.onStartWorldDownload] }

/-- `BaseClient.disconnect`: close and deregister the TCP socket if any,
then the UDP socket if any, clear `multicast` and `connected`, and emit
`onDisconnect`. -/
def disconnect (s : ClientState) : ClientState :=
  let s1 := match s.tcp with
    | some t => { s with tcp := none, loopSources := s.loopSources.erase t }
    | none => s
  let s2 := match s1.udp with
    | some u => { s1 with udp := none, loopSources := s1.loopSources.erase u }
    | none => s1
  emitOnDisconnect { s2 with multicast := none, connected := false }

/-- Python falsiness of the `server` argument of `connect` (`not
server`): `None` or the empty string. -/
def isEmptyServer : Option String → Bool
  | none => true
  | some str => str == ""

/-- `BaseClient.connect`: raise on a falsy server; otherwise disconnect
first if a TCP socket exists, open a fresh TCP socket, register it with
the event loop, route multicast over it, and install the hello
handler. -/
def connect (s : ClientState) (server : Option String) :
    ClientState × Option ErrKind :=
  if isEmptyServer server then
    (s, some (.networkException "A server must be specified"))
  else
    let s1 := if s.tcp.isSome then disconnect s else s
    let sock := s1.nextSock
    let s2 := { s1 with tcp := some sock, nextSock := sock + 1,
                        loopSources := s1.loopSources ++ [sock] }
    let s3 := { s2 with multicast := some sock }
    ({ s3 with handler := some .helloHandler }, none)

/-- `BaseClient.handleHelloPacket`: on a version mismatch raise a
`ProtocolError` naming both versions (before any attribute is touched);
on a match store the assigned client id, set `connected`, switch the
read handler to message dispatch, and emit `onConnect`. -/
def handleHelloPacket (dict : FlagDict) (s : ClientState)
    (version : String) (clientId : Nat) : ClientState × Option ErrKind :=
  if version ≠ protocolVersion then
    (s, some (.protocolError ("Protocol version mismatch: The server is version '"
        ++ version ++ "', this client is version '" ++ protocolVersion ++ "'.")))
  else
    (emitOnConnect dict { s with id := some clientId, connected := true,
                                 handler := some .messageHandler }, none)

/-- `StatefulClient.onMsgSuperKill`: the server wants us to die
immediately. -/
def onMsgSuperKill (s : ClientState) : ClientState :=
  disconnect s

/-- `StatefulClient.onMsgLagPing`: reply with the same message. -/
def onMsgLagPing (s : ClientState) (data : String) : ClientState :=
  tcpWrite s (.msgLagPing data)

/-- `StatefulClient.onMsgNegotiateFlags`: decode the server's list of
unknown capability abbreviations; a non-empty list raises a
`ProtocolError` naming them, an empty list emits `onNegotiateFlags`
(whose method body requests the world hash). -/
def onMsgNegotiateFlags (s : ClientState) (data : String) :
    ClientState × Option ErrKind :=
  match splitAbbreviations data with
  | [] => (emitOnNegotiateFlags s, none)
  | u :: us =>
      (s, some (.protocolError ("Server knows about the following flags that we don't: "
          ++ joinComma (u :: us))))

/-- `StatefulClient.downloadWorld`: emit `onStartWorldDownload`,
initialize the transfer buffer to the empty string, and request the
first chunk at offset 0. -/
def downloadWorld (s : ClientState) : ClientState :=
  let s1 := emitOnStartWorldDownload s
  tcpWrite { s1 with binaryWorld := some "" } (.msgGetWorld 0)

/-- `StatefulClient.onMsgWantWHash`: enable caching iff the lifetime is
`permanent`, record the hash; on a cache hit decode the cached blob into
the game's world and emit `onLoadWorld`, otherwise start a download. -/
def onMsgWantWHash (s : ClientState) (lifetime hash : String) : ClientState :=
  let s1 := { s with cachingEnabled := lifetime == "permanent",
                     worldHash := some hash }
  if s1.cachingEnabled then
    match alookup s1.cacheStore hash with
    | some blob =>
        emitOnLoadWorld
          { s1 with game := { s1.game with world := some (loadBinary blob) } }
    | none => downloadWorld s1
  else
    downloadWorld s1

/-- `StatefulClient.onMsgGetWorld`: append the chunk to the buffer; if
more remains request the next chunk at offset = the buffer's new length;
otherwise store the complete buffer in the cache when caching is
enabled, decode it into the game's world, delete the buffer attribute,
set `worldDownloaded`, and emit `onLoadWorld`. -/
def onMsgGetWorld (s : ClientState) (data : String) (remaining : Bool) :
    ClientState :=
  let s1 := { s with binaryWorld := some (s.binaryWorld.getD "" ++ data) }
  if remaining then
    tcpWrite s1 (.msgGetWorld (s1.binaryWorld.getD "").length)
  else
    let s2 :=
      if s1.cachingEnabled then
        { s1 with cacheStore := aset s1.cacheStore (s1.worldHash.getD "")
                    (s1.binaryWorld.getD "") }
      else s1
    let s3 := { s2 with
      game := { s2.game with world := some (loadBinary (s2.binaryWorld.getD "")) },
      binaryWorld := none, worldDownloaded := true }
    emitOnLoadWorld s3

/-- `StatefulClient.onMsgAddPlayer`: insert a Player keyed by the id in
the message (`Game.addPlayer`, modelled from the spec as dictionary
insertion). -/
def onMsgAddPlayer (s : ClientState) (pid : Nat) (fields : String) :
    ClientState :=
  { s with game := { s.game with players := aset s.game.players pid ⟨fields⟩ } }

/-- `StatefulClient.onMsgRemovePlayer`: remove the Player with the given
id if present; absence is not an error. -/
def onMsgRemovePlayer (s : ClientState) (pid : Nat) : ClientState :=
  { s with game := { s.game with players := aremove s.game.players pid } }

/-- `StatefulClient.onMsgPlayerUpdate`: apply the message's fields to
the existing Player with that id; a missing id (`KeyError`) is silently
swallowed with no mutation. -/
def onMsgPlayerUpdate (s : ClientState) (pid : Nat) (fields : String) :
    ClientState :=
  match alookup s.game.players pid with
  | some _ =>
      { s with game := { s.game with players := aset s.game.players pid ⟨fields⟩ } }
  | none => s

/-- Modelled from the spec: `Game.getFlag` followed by
`flag.updateFromMessage` — resolve-or-create the Flag entry for the flag
number with the given type, then apply the message's state fields. -/
def Game.updFlag (g : Game) (flagNum : Nat) (ftype : String)
    (fields : String) : Game :=
  match alookup g.flags flagNum with
  | some e => { g with flags := aset g.flags flagNum { e with fields := fields } }
  | none =>
      { g with flags := aset g.flags flagNum { flagType := ftype, fields := fields } }

/-- `StatefulClient.updateFlag`: resolve the flag's type from the
capability dictionary by the id carried in the message; an unknown id
(`KeyError`) raises a `ProtocolWarning` naming the flag number and the
id, applying no update; otherwise mutate the Flag entry. -/
def updateFlag (dict : FlagDict) (s : ClientState) (flagNum : Nat)
    (updateId : String) (fields : String) : ClientState × Option ErrKind :=
  match alookup dict updateId with
  | none =>
      (s, some (.protocolWarning ("Can't update flag number " ++ toString flagNum
          ++ " with unknown ID " ++ updateId)))
  | some ftype => ({ s with game := s.game.updFlag flagNum ftype fields }, none)

/-- `BaseClient.handleMessage` dispatch over `StatefulClient`'s `onMsg…`
handlers (the reflection dispatch made explicit); the `FIXME` handlers
are no-ops. -/
def handleMessage (dict : FlagDict) (s : ClientState) :
    InMsg → ClientState × Option ErrKind
  | .msgSuperKill => (onMsgSuperKill s, none)
  | .msgLagPing data => (onMsgLagPing s data, none)
  | .msgNegotiateFlags data => onMsgNegotiateFlags s data
  | .msgWantWHash lifetime hash => (onMsgWantWHash s lifetime hash, none)
  | .msgGetWorld data remaining => (onMsgGetWorld s data remaining, none)
  | .msgAddPlayer pid fields => (onMsgAddPlayer s pid fields, none)
  | .msgRemovePlayer pid => (onMsgRemovePlayer s pid, none)
  | .msgPlayerUpdate pid fields => (onMsgPlayerUpdate s pid fields, none)
  | .msgFlagUpdate n uid f => updateFlag dict s n uid f
  | .msgGrabFlag n uid f => updateFlag dict s n uid f
  | .msgDropFlag n uid f => updateFlag dict s n uid f
  | .msgTeamUpdate => (s, none)
  | .msgNewRabbit => (s, none)
  | .msgShotBegin => (s, none)
  | .msgShotEnd => (s, none)
  | .msgAlive => (s, none)
  | .msgTeleport => (s, none)

/-- Processing of a sequence of world chunks that all carry
`remaining = true` (the strictly sequential download loop). -/
def runChunks (s : ClientState) (chunks : List String) : ClientState :=
  chunks.foldl (fun t d => onMsgGetWorld t d true) s

/-- Chunk requests issued while processing a chunk list from a buffer
holding `b`: each request carries the buffer length after the append. -/
def chunkRequests (b : String) : List String → List OutMsg
  | [] => []
  | d :: rest => .msgGetWorld (b ++ d).length :: chunkRequests (b ++ d) rest

/-- Number of world-hash requests in a sent-message log. -/
def countWantWHash (l : List OutMsg) : Nat :=
  (l.filter (fun m => m == OutMsg.msgWantWHash)).length

/-- Example client state whose world-hash exchange reported a permanent
lifetime and hash `abc123` (cache currently empty). -/
def exPerm : ClientState :=
  { initState with connected := true, tcp := some 0,
                   cachingEnabled := true, worldHash := some "abc123" }

/-- Example client state caught in the middle of a world download: the
world hash arrived (permanent, cache miss), the download started, and
one chunk of four bytes has been appended to the transfer buffer. -/
def exMid : ClientState :=
  onMsgGetWorld
    (onMsgWantWHash { initState with connected := true, tcp := some 0 }
      "permanent" "abc123")
    "AAAA" true

/-- Example client state whose external world cache already holds a blob
under the hash `abc123`. -/
def exCacheHit : ClientState :=
  { initState with cacheStore := [("abc123", "CACHEDWORLD")] }

/-- Example capability dictionary knowing a single capability id. -/
def exDict : FlagDict := [("GM", "GuidedMissile")]

/-! Helper lemmas shared across the claim theorems. -/

theorem alookup_aset {α β : Type} [DecidableEq α] (l : List (α × β))
    (key : α) (val : β) : alookup (aset l key val) key = some val := by
  induction l with
  | nil => simp [aset, alookup]
  | cons p rest ih =>
      obtain ⟨k, v⟩ := p
      by_cases h : k = key <;> simp [aset, alookup, h, ih]

theorem concatStrs_length (xs : List String) :
    (concatStrs xs).length = (xs.map String.length).sum := by
  induction xs with
  | nil => rfl
  | cons a xs ih => simp [concatStrs, ih]

theorem chunkRequests_append (xs ys : List String) : ∀ b : String,
    chunkRequests b (xs ++ ys) =
      chunkRequests b xs ++ chunkRequests (b ++ concatStrs xs) ys := by
  induction xs with
  | nil => intro b; simp [chunkRequests, concatStrs]
  | cons d xs ih =>
      intro b
      simp [chunkRequests, concatStrs, ih, String.append_assoc]

theorem countWantWHash_append (a b : List OutMsg) :
    countWantWHash (a ++ b) = countWantWHash a + countWantWHash b := by
  simp [countWantWHash, List.filter_append]

theorem disconnect_tcp (s : ClientState) : (disconnect s).tcp = none := by
  cases htcp : s.tcp <;> cases hudp : s.udp <;>
    simp [disconnect, emitOnDisconnect, htcp, hudp]

theorem disconnect_udp (s : ClientState) : (disconnect s).udp = none := by
  cases htcp : s.tcp <;> cases hudp : s.udp <;>
    simp [disconnect, emitOnDisconnect, htcp, hudp]

theorem disconnect_multicast (s : ClientState) :
    (disconnect s).multicast = none := by
  cases htcp : s.tcp <;> cases hudp : s.udp <;>
    simp [disconnect, emitOnDisconnect, htcp, hudp]

theorem disconnect_connected (s : ClientState) :
    (disconnect s).connected = false := by
  cases htcp : s.tcp <;> cases hudp : s.udp <;>
    simp [disconnect, emitOnDisconnect, htcp, hudp]

theorem disconnect_loopRunning (s : ClientState) :
    (disconnect s).loopRunning = false := by
  cases htcp : s.tcp <;> cases hudp : s.udp <;>
    simp [disconnect, emitOnDisconnect, htcp, hudp]

theorem disconnect_events (s : ClientState) :
    (disconnect s).events = s.events ++ [Ev.onDisconnect] := by
  cases htcp : s.tcp <;> cases hudp : s.udp <;>
    simp [disconnect, emitOnDisconnect, htcp, hudp]

theorem disconnect_sent (s : ClientState) : (disconnect s).sent = s.sent := by
  cases htcp : s.tcp <;> cases hudp : s.udp <;>
    simp [disconnect, emitOnDisconnect, htcp, hudp]

theorem disconnect_game (s : ClientState) : (disconnect s).game = s.game := by
  cases htcp : s.tcp <;> cases hudp : s.udp <;>
    simp [disconnect, emitOnDisconnect, htcp, hudp]

theorem disconnect_cacheStore (s : ClientState) :
    (disconnect s).cacheStore = s.cacheStore := by
  cases htcp : s.tcp <;> cases hudp : s.udp <;>
    simp [disconnect, emitOnDisconnect, htcp, hudp]

theorem disconnect_binaryWorld (s : ClientState) :
    (disconnect s).binaryWorld = s.binaryWorld := by
  cases htcp : s.tcp <;> cases hudp : s.udp <;>
    simp [disconnect, emitOnDisconnect, htcp, hudp]

theorem disconnect_cachingEnabled (s : ClientState) :
    (disconnect s).cachingEnabled = s.cachingEnabled := by
  cases htcp : s.tcp <;> cases hudp : s.udp <;>
    simp [disconnect, emitOnDisconnect, htcp, hudp]

theorem disconnect_worldHash (s : ClientState) :
    (disconnect s).worldHash = s.worldHash := by
  cases htcp : s.tcp <;> cases hudp : s.udp <;>
    simp [disconnect, emitOnDisconnect, htcp, hudp]

theorem disconnect_handler (s : ClientState) :
    (disconnect s).handler = s.handler := by
  cases htcp : s.tcp <;> cases hudp : s.udp <;>
    simp [disconnect, emitOnDisconnect, htcp, hudp]

theorem disconnect_id (s : ClientState) : (disconnect s).id = s.id := by
  cases htcp : s.tcp <;> cases hudp : s.udp <;>
    simp [disconnect, emitOnDisconnect, htcp, hudp]

theorem disconnect_nextSock (s : ClientState) :
    (disconnect s).nextSock = s.nextSock := by
  cases htcp : s.tcp <;> cases hudp : s.udp <;>
    simp [disconnect, emitOnDisconnect, htcp, hudp]

theorem disconnect_worldDownloaded (s : ClientState) :
    (disconnect s).worldDownloaded = s.worldDownloaded := by
  cases htcp : s.tcp <;> cases hudp : s.udp <;>
    simp [disconnect, emitOnDisconnect, htcp, hudp]

theorem onMsgGetWorld_true (s : ClientState) (b d : String)
    (hb : s.binaryWorld = some b) :
    onMsgGetWorld s d true =
      { s with binaryWorld := some (b ++ d),
               sent := s.sent ++ [OutMsg.msgGetWorld (b ++ d).length] } := by
  simp [onMsgGetWorld, tcpWrite, hb]

theorem runChunks_eq (chunks : List String) : ∀ (s : ClientState) (b : String),
    s.binaryWorld = some b →
    runChunks s chunks =
      { s with binaryWorld := some (b ++ concatStrs chunks),
               sent := s.sent ++ chunkRequests b chunks } := by
  induction chunks with
  | nil =>
      intro s b hb
      simp only [runChunks, List.foldl_nil, concatStrs, chunkRequests,
        String.append_empty, List.append_nil]
      rw [← hb]
  | cons d rest ih =>
      intro s b hb
      have hstep := onMsgGetWorld_true s b d hb
      have hrc : runChunks s (d :: rest) = runChunks (onMsgGetWorld s d true) rest := rfl
      rw [hrc, hstep, ih _ (b ++ d) rfl]
      simp [concatStrs, chunkRequests, String.append_assoc]

/-! Claim theorems. -/

theorem disconnect_of_down (t : ClientState) (h1 : t.tcp = none)
    (h2 : t.udp = none) (h3 : t.multicast = none) (h4 : t.connected = false)
    (h5 : t.loopRunning = false) :
    disconnect t = { t with events := t.events ++ [Ev.onDisconnect] } := by
  simp [disconnect, emitOnDisconnect, h1, h2, h3, h4, h5]

/-- C2: for every connection attempt, `connected` is false from the
moment `connect` returns (using the invariant that a client holding no
TCP socket is not connected), becomes true exactly when a handshake
record whose protocol version equals the compiled-in `protocolVersion`
is decoded, and decoding a handshake with a differing version raises a
`ProtocolError` whose message carries both versions while leaving
`connected` false. -/
theorem c2_handshake_version_gate (dict : FlagDict) (s : ClientState)
    (v : String) (cid : Nat) (server : Option String)
    (hinv : s.tcp = none → s.connected = false)
    (hconn : s.connected = false) :
    (isEmptyServer server = false → (connect s server).1.connected = false) ∧
    (v = protocolVersion →
       (handleHelloPacket dict s v cid).1.connected = true ∧
       (handleHelloPacket dict s v cid).2 = none) ∧
    (v ≠ protocolVersion →
       handleHelloPacket dict s v cid =
         (s, some (ErrKind.protocolError ("Protocol version mismatch: The server is version '"
             ++ v ++ "', this client is version '" ++ protocolVersion ++ "'."))) ∧
       (handleHelloPacket dict s v cid).1.connected = false) := by
  refine ⟨?_, ?_, ?_⟩
  · intro hs
    cases htcp : s.tcp with
    | some t => simp [connect, hs, htcp, disconnect_connected]
    | none => simp [connect, hs, htcp, hinv htcp]
  · intro hv
    simp [handleHelloPacket, hv, emitOnConnect, negotiateFlags, tcpWrite]
  · intro hv
    refine ⟨?_, ?_⟩
    · simp [handleHelloPacket, hv]
    · simp [handleHelloPacket, hv, hconn]

/-- C2 witness: on a fresh client a matching-version handshake sets
`connected`, and a `connect` call on a concrete address leaves
`connected` false. -/
theorem c2_witness :
    (handleHelloPacket [] initState protocolVersion 7).1.connected = true ∧
    (connect initState (some "localhost")).1.connected = false := by
  have h := c2_handshake_version_gate [] initState protocolVersion 7
    (some "localhost") (fun _ => rfl) rfl
  exact ⟨(h.2.1 rfl).1, h.1 (by decide)⟩

/-- C3: flag-negotiation response: a non-empty decoded
unknown-capability list raises a `ProtocolError` naming those
capabilities and the state is unchanged (in particular no world-hash
request is sent); an empty list raises nothing and issues exactly one
world-hash request. -/
theorem c3_negotiation_response (s : ClientState) (data : String) :
    (splitAbbreviations data ≠ [] →
       onMsgNegotiateFlags s data =
         (s, some (ErrKind.protocolError
             ("Server knows about the following flags that we don't: "
               ++ joinComma (splitAbbreviations data))))) ∧
    (splitAbbreviations data = [] →
       (onMsgNegotiateFlags s data).2 = none ∧
       (onMsgNegotiateFlags s data).1.sent = s.sent ++ [OutMsg.msgWantWHash] ∧
       countWantWHash (onMsgNegotiateFlags s data).1.sent =
         countWantWHash s.sent + 1) := by
  constructor
  · intro hne
    cases hsp : splitAbbreviations data with
    | nil => exact absurd hsp hne
    | cons u us => simp [onMsgNegotiateFlags, hsp]
  · intro he
    simp [onMsgNegotiateFlags, he, emitOnNegotiateFlags, getWorldHash,
      tcpWrite, countWantWHash_append, countWantWHash]

/-- C3 witness: an empty response string decodes to the empty list and
triggers exactly one world-hash request; the response "CF" decodes
non-empty and yields the protocol error with no message sent. -/
theorem c3_witness :
    (onMsgNegotiateFlags initState "").1.sent = [OutMsg.msgWantWHash] ∧
    onMsgNegotiateFlags initState "CF" =
      (initState, some (ErrKind.protocolError
        "Server knows about the following flags that we don't: CF")) := by
  have h1 := c3_negotiation_response initState ""
  have h2 := c3_negotiation_response initState "CF"
  exact ⟨(h1.2 rfl).2.1, h2.1 (by decide)⟩

/-- C4: world-hash response: caching is enabled iff the reported
lifetime is `permanent`; with caching enabled and a cache hit the
cached blob is decoded into the game model's world and `onLoadWorld`
fires with no chunk request sent; otherwise the chunked download begins
with `onStartWorldDownload`, an empty transfer buffer and a first chunk
request at offset 0. -/
theorem c4_world_hash_response (s : ClientState) (lifetime hash : String) :
    (onMsgWantWHash s lifetime hash).cachingEnabled = (lifetime == "permanent") ∧
    (onMsgWantWHash s lifetime hash).worldHash = some hash ∧
    (∀ blob, lifetime = "permanent" → alookup s.cacheStore hash = some blob →
       (onMsgWantWHash s lifetime hash).game.world = some (loadBinary blob) ∧
       (onMsgWantWHash s lifetime hash).events = s.events ++ [Ev.onLoadWorld] ∧
       (onMsgWantWHash s lifetime hash).sent = s.sent ∧
       (onMsgWantWHash s lifetime hash).binaryWorld = s.binaryWorld) ∧
    ((lifetime ≠ "permanent" ∨ alookup s.cacheStore hash = none) →
       (onMsgWantWHash s lifetime hash).events = s.events ++ [Ev.onStartWorldDownload] ∧
       (onMsgWantWHash s lifetime hash).binaryWorld = some "" ∧
       (onMsgWantWHash s lifetime hash).sent = s.sent ++ [OutMsg.msgGetWorld 0]) := by
  by_cases hp : lifetime = "permanent"
  · cases hcache : alookup s.cacheStore hash with
    | some blob =>
        refine ⟨?_, ?_, ?_, ?_⟩
        · simp [onMsgWantWHash, hp, hcache, emitOnLoadWorld]
        · simp [onMsgWantWHash, hp, hcache, emitOnLoadWorld]
        · intro blob2 _ hc2
          obtain rfl : blob = blob2 := Option.some.inj hc2
          refine ⟨?_, ?_, ?_, ?_⟩ <;> simp [onMsgWantWHash, hp, hcache, emitOnLoadWorld]
        · intro hd
          rcases hd with hd | hd
          · exact absurd hp hd
          · exact Option.noConfusion hd
    | none =>
        refine ⟨?_, ?_, ?_, ?_⟩
        · simp [onMsgWantWHash, hp, hcache, downloadWorld,
            emitOnStartWorldDownload, tcpWrite]
        · simp [onMsgWantWHash, hp, hcache, downloadWorld,
            emitOnStartWorldDownload, tcpWrite]
        · intro blob _ hc2
          exact Option.noConfusion hc2
        · intro _
          refine ⟨?_, ?_, ?_⟩ <;> simp [onMsgWantWHash, hp, hcache, downloadWorld,
            emitOnStartWorldDownload, tcpWrite]
  · refine ⟨?_, ?_, ?_, ?_⟩
    · simp [onMsgWantWHash, hp, downloadWorld, emitOnStartWorldDownload, tcpWrite]
    · simp [onMsgWantWHash, hp, downloadWorld, emitOnStartWorldDownload, tcpWrite]
    · intro blob hperm _
      exact absurd hperm hp
    · intro _
      refine ⟨?_, ?_, ?_⟩ <;> simp [onMsgWantWHash, hp, downloadWorld,
        emitOnStartWorldDownload, tcpWrite]

/-- C4 witness: with a permanent lifetime and a cache holding the hash,
the cached blob is loaded and nothing is sent; with a temporary
lifetime the download starts at offset 0. -/
theorem c4_witness :
    (onMsgWantWHash exCacheHit "permanent" "abc123").game.world = some "CACHEDWORLD" ∧
    (onMsgWantWHash exCacheHit "permanent" "abc123").sent = [] ∧
    (onMsgWantWHash initState "temporary" "abc123").sent = [OutMsg.msgGetWorld 0] := by
  have h1 := c4_world_hash_response exCacheHit "permanent" "abc123"
  have h2 := c4_world_hash_response initState "temporary" "abc123"
  have ha := h1.2.2.1 "CACHEDWORLD" rfl (by decide)
  have hb := h2.2.2.2 (Or.inl (by decide))
  exact ⟨ha.1, ha.2.2.1.trans rfl, hb.2.2.trans rfl⟩

/-- C5 counterexample: immediately after a mid-download `disconnect()`
the partial transfer buffer is still present and still holds the
partially downloaded bytes — the attribute is not deleted, so the
buffer is not discarded. -/
theorem c5_counterexample :
    (disconnect exMid).binaryWorld = some "AAAA" ∧
    ((disconnect exMid).binaryWorld).isSome = true :=
  ⟨rfl, rfl⟩

/-- C5 amended: `disconnect()` during a world download aborts the
pending protocol steps (the socket is closed and deregistered,
`connected` cleared), writes nothing to the cache, rolls back no
game-model update, and retains — rather than discards — the partial
transfer buffer unchanged; the buffer is only reset when the next world
transfer begins, `downloadWorld` re-initializing it to empty and
requesting offset 0. -/
theorem c5_disconnect_mid_download (s : ClientState) :
    (disconnect s).tcp = none ∧
    (disconnect s).connected = false ∧
    (disconnect s).cacheStore = s.cacheStore ∧
    (disconnect s).game = s.game ∧
    (disconnect s).binaryWorld = s.binaryWorld ∧
    (downloadWorld (disconnect s)).binaryWorld = some "" ∧
    (downloadWorld (disconnect s)).sent = s.sent ++ [OutMsg.msgGetWorld 0] := by
  refine ⟨disconnect_tcp s, disconnect_connected s, disconnect_cacheStore s,
    disconnect_game s, disconnect_binaryWorld s, rfl, ?_⟩
  simp [downloadWorld, emitOnStartWorldDownload, tcpWrite, disconnect_sent]

/-- C6 counterexample: `connect` on a null server address raises
`Errors.NetworkException`, not the `ConfigurationError` class the claim
names. -/
theorem c6_counterexample :
    (connect initState none).2 =
      some (ErrKind.networkException "A server must be specified") ∧
    (connect initState none).2.map ErrKind.isConfigurationError = some false :=
  ⟨rfl, rfl⟩

/-- C6 amended: for every call to `connect` with an empty or null server
address, the call fails synchronously to its caller with a
`NetworkException` carrying the message "A server must be specified",
and no transport is opened (the client state is returned unchanged). -/
theorem c6_empty_server (s : ClientState) (server : Option String)
    (h : isEmptyServer server = true) :
    connect s server =
      (s, some (ErrKind.networkException "A server must be specified")) := by
  simp [connect, h]

/-- C6 witness: the empty-string server address fails synchronously with
the network exception and an unchanged state. -/
theorem c6_witness :
    connect initState (some "") =
      (initState, some (ErrKind.networkException "A server must be specified")) :=
  c6_empty_server initState (some "") rfl

/-- C7: a flag-update, grab-flag or drop-flag message whose
capability-type id is absent from the global capability dictionary
yields a `ProtocolWarning` naming the flag number and the unknown id,
the warning class is non-fatal, and the client state — in particular
every Flag entry of the game model — is unchanged. -/
theorem c7_unknown_capability_id (dict : FlagDict) (s : ClientState)
    (flagNum : Nat) (uid : String) (fields : String)
    (h : alookup dict uid = none) :
    handleMessage dict s (InMsg.msgFlagUpdate flagNum uid fields) =
      (s, some (ErrKind.protocolWarning ("Can't update flag number "
        ++ toString flagNum ++ " with unknown ID " ++ uid))) ∧
    handleMessage dict s (InMsg.msgGrabFlag flagNum uid fields) =
      (s, some (ErrKind.protocolWarning ("Can't update flag number "
        ++ toString flagNum ++ " with unknown ID " ++ uid))) ∧
    handleMessage dict s (InMsg.msgDropFlag flagNum uid fields) =
      (s, some (ErrKind.protocolWarning ("Can't update flag number "
        ++ toString flagNum ++ " with unknown ID " ++ uid))) ∧
    ErrKind.isFatal (ErrKind.protocolWarning ("Can't update flag number "
        ++ toString flagNum ++ " with unknown ID " ++ uid)) = false := by
  refine ⟨?_, ?_, ?_, rfl⟩ <;> simp [handleMessage, updateFlag, h]

/-- C7 witness: with a dictionary knowing only the id "GM", a flag
update carrying id "XX" produces the warning and leaves the state
unchanged. -/
theorem c7_witness :
    handleMessage exDict initState (InMsg.msgFlagUpdate 3 "XX" "held") =
      (initState, some (ErrKind.protocolWarning
        "Can't update flag number 3 with unknown ID XX")) :=
  (c7_unknown_capability_id exDict initState 3 "XX" "held" (by decide)).1

/-- C8: a player-update message whose player id is absent from the game
model's player mapping raises no error and performs no mutation at
all. -/
theorem c8_unknown_player_update (dict : FlagDict) (s : ClientState)
    (pid : Nat) (fields : String)
    (h : alookup s.game.players pid = none) :
    handleMessage dict s (InMsg.msgPlayerUpdate pid fields) = (s, none) := by
  simp [handleMessage, onMsgPlayerUpdate, h]

/-- C8 witness: a player update for id 5 on a fresh client with no
players is a silent no-op. -/
theorem c8_witness :
    handleMessage [] initState (InMsg.msgPlayerUpdate 5 "pos") =
      (initState, none) :=
  c8_unknown_player_update [] initState 5 "pos" rfl

/-- C9: `disconnect` is idempotent: a second call on the
already-disconnected state runs without error and changes nothing
except re-emitting the `onDisconnect` notification (`connected` is
already cleared, both sockets already closed, the loop already
stopped). -/
theorem c9_disconnect_idempotent (s : ClientState) :
    disconnect (disconnect s) =
      { disconnect s with
          events := (disconnect s).events ++ [Ev.onDisconnect] } :=
  disconnect_of_down (disconnect s) (disconnect_tcp s) (disconnect_udp s)
    (disconnect_multicast s) (disconnect_connected s) (disconnect_loopRunning s)

/-- C10: every `disconnect()` call — including on a freshly initialized,
never-connected client whose event loop is still running — emits the
`onDisconnect` notification, whose default handler stops the hosting
event loop. -/
theorem c10_disconnect_stops_loop (s : ClientState) :
    (disconnect s).events = s.events ++ [Ev.onDisconnect] ∧
    (disconnect s).loopRunning = false ∧
    initState.loopRunning = true ∧
    (disconnect initState).events = [Ev.onDisconnect] ∧
    (disconnect initState).loopRunning = false := by
  refine ⟨disconnect_events s, disconnect_loopRunning s, rfl, ?_,
    disconnect_loopRunning initState⟩
  rw [disconnect_events initState]
  rfl

theorem concatStrs_append (xs ys : List String) :
    concatStrs (xs ++ ys) = concatStrs xs ++ concatStrs ys := by
  induction xs with
  | nil => simp [concatStrs]
  | cons a xs ih => simp [concatStrs, ih, String.append_assoc]

/-- C1: throughout a chunked world download started by `downloadWorld`,
the transfer buffer always equals the concatenation of the chunk
payloads appended so far (so its length is the sum of their lengths),
each follow-up chunk request carries offset equal to the buffer's
length after the append, and on the final chunk (no data remaining) the
complete buffer is stored in the cache under the world hash when
caching is enabled, decoded into the game model's world, discarded
(attribute deleted), and `onLoadWorld` is emitted with nothing further
sent. -/
theorem c1_chunked_world_download (s0 : ClientState) (chunks : List String)
    (dLast : String) :
    (∀ p q, chunks = p ++ q →
       (runChunks (downloadWorld s0) p).binaryWorld = some (concatStrs p) ∧
       (concatStrs p).length = (p.map String.length).sum) ∧
    (∀ p d q, chunks = p ++ d :: q →
       (runChunks (downloadWorld s0) (p ++ [d])).sent =
         (runChunks (downloadWorld s0) p).sent
           ++ [OutMsg.msgGetWorld (concatStrs (p ++ [d])).length] ∧
       (runChunks (downloadWorld s0) (p ++ [d])).binaryWorld =
         some (concatStrs (p ++ [d]))) ∧
    ((onMsgGetWorld (runChunks (downloadWorld s0) chunks) dLast false).binaryWorld
        = none ∧
     (onMsgGetWorld (runChunks (downloadWorld s0) chunks) dLast false).game.world
        = some (loadBinary (concatStrs chunks ++ dLast)) ∧
     (onMsgGetWorld (runChunks (downloadWorld s0) chunks) dLast false).events
        = (runChunks (downloadWorld s0) chunks).events ++ [Ev.onLoadWorld] ∧
     (onMsgGetWorld (runChunks (downloadWorld s0) chunks) dLast false).sent
        = (runChunks (downloadWorld s0) chunks).sent ∧
     (onMsgGetWorld (runChunks (downloadWorld s0) chunks) dLast
        false).worldDownloaded = true ∧
     (s0.cachingEnabled = true →
        alookup
          (onMsgGetWorld (runChunks (downloadWorld s0) chunks) dLast false).cacheStore
          (s0.worldHash.getD "") = some (concatStrs chunks ++ dLast)) ∧
     (s0.cachingEnabled = false →
        (onMsgGetWorld (runChunks (downloadWorld s0) chunks) dLast false).cacheStore
          = s0.cacheStore)) := by
  have hrun : ∀ p : List String,
      runChunks (downloadWorld s0) p =
        { downloadWorld s0 with
            binaryWorld := some (concatStrs p),
            sent := (downloadWorld s0).sent ++ chunkRequests "" p } := by
    intro p
    exact runChunks_eq p (downloadWorld s0) "" rfl
  refine ⟨?_, ?_, ?_⟩
  · intro p q hpq
    refine ⟨?_, concatStrs_length p⟩
    rw [hrun p]
  · intro p d q hpq
    constructor
    · rw [hrun (p ++ [d]), hrun p]
      show (downloadWorld s0).sent ++ chunkRequests "" (p ++ [d]) = _
      rw [chunkRequests_append]
      simp [chunkRequests, concatStrs_append, concatStrs, String.append_assoc]
    · rw [hrun (p ++ [d])]
  · rw [hrun chunks]
    cases hcache : s0.cachingEnabled <;>
      simp [onMsgGetWorld, emitOnLoadWorld, downloadWorld,
        emitOnStartWorldDownload, tcpWrite, hcache, alookup_aset]

/-- C1 witness: a concrete two-chunk download ("AAAA" then final "BB")
from a caching-enabled state: after the first chunk the buffer holds
exactly those four bytes, and the final chunk stores the six-byte world
under the hash and clears the buffer. -/
theorem c1_witness :
    (runChunks (downloadWorld exPerm) ["AAAA"]).binaryWorld = some "AAAA" ∧
    (onMsgGetWorld (runChunks (downloadWorld exPerm) ["AAAA"]) "BB"
        false).binaryWorld = none ∧
    alookup (onMsgGetWorld (runChunks (downloadWorld exPerm) ["AAAA"]) "BB"
        false).cacheStore "abc123" = some ("AAAA" ++ "BB") := by
  have h := c1_chunked_world_download exPerm ["AAAA"] "BB"
  have hb := (h.1 ["AAAA"] [] rfl).1
  have hn := h.2.2.1
  have hc := h.2.2.2.2.2.2.2.1 rfl
  refine ⟨?_, hn, ?_⟩
  · simpa [concatStrs] using hb
  · simpa [concatStrs] using hc
